import Mathlib

/-!
Verification development for the freeSearch repository: a shallow embedding
of the query-routing and retrieval-augmented answer pipeline (search gateway,
result normalizer, query classifier, chat POST orchestration) together with
theorems settling the specification claims.

External effects (the SearXNG backend, the model inference endpoint, the
persistence store) are modelled as oracles: an Except Unit result stands for
a promise that either rejects (error, the thrown-exception case) or resolves.
-/

namespace FreeSearch

/-! ## JS-flavoured string primitives -/

/-- Whitespace as matched by the JS regex class backslash-s (ASCII part). -/
def isWsChar (c : Char) : Bool :=
  c = ' ' || c = '\t' || c = '\n' || c = '\r' || c = '\x0b' || c = '\x0c'

def isDigitChar (c : Char) : Bool := '0' ≤ c && c ≤ '9'

def isLowerAlpha (c : Char) : Bool := 'a' ≤ c && c ≤ 'z'

def isUpperAlpha (c : Char) : Bool := 'A' ≤ c && c ≤ 'Z'

/-- Word character for the JS regex word-boundary: letters, digits, underscore. -/
def isWordChar (c : Char) : Bool :=
  isLowerAlpha c || isUpperAlpha c || isDigitChar c || c = '_'

/-- Character matched by the JS regex dot (everything except line terminators). -/
def notNL (c : Char) : Bool := c ≠ '\n' && c ≠ '\r'

/-- Model of the JS String.prototype.trim (ASCII whitespace). -/
def jsTrim (s : String) : String :=
  String.mk (((s.toList.dropWhile isWsChar).reverse.dropWhile isWsChar).reverse)

/-- Model of JS toLowerCase for the ASCII inputs the claims exercise. -/
def toLowerStr (s : String) : String := String.mk (s.toList.map Char.toLower)

/-- Model of JS toUpperCase for the ASCII inputs the claims exercise. -/
def toUpperStr (s : String) : String := String.mk (s.toList.map Char.toUpper)

/-- Drop the literal word from the front, or fail. -/
def dropLit (w : List Char) (cs : List Char) : Option (List Char) :=
  match w, cs with
  | [], rest => some rest
  | a :: ws, c :: rest => if c = a then dropLit ws rest else none
  | _ :: _, [] => none

/-- Drop the literal word from the front, comparing case-insensitively. -/
def dropLitCI (w : List Char) (cs : List Char) : Option (List Char) :=
  match w, cs with
  | [], rest => some rest
  | a :: ws, c :: rest => if c.toLower = a.toLower then dropLitCI ws rest else none
  | _ :: _, [] => none

/-- Substring test, used for the JS String.prototype.includes. -/
def containsSubL (pat : List Char) (cs : List Char) : Bool :=
  match cs with
  | [] => pat.isEmpty
  | _ :: rest => (dropLit pat cs).isSome || containsSubL pat rest

/-- Case-insensitive substring test. -/
def containsCIL (pat : List Char) (cs : List Char) : Bool :=
  containsSubL (pat.map Char.toLower) (cs.map Char.toLower)

/-- Split at the first case-insensitive occurrence of the pattern, returning
the text before it and the text after it. -/
def splitAtCIL (pat : List Char) (cs : List Char) : Option (List Char × List Char) :=
  match cs with
  | [] => if pat.isEmpty then some ([], []) else none
  | c :: rest =>
    match dropLitCI pat cs with
    | some r => some ([], r)
    | none => (splitAtCIL pat rest).map (fun pr => (c :: pr.1, pr.2))

/-- Model of the JS String.prototype.split on a single-character separator
(as used with the literal newline separator): keeps empty chunks. -/
def splitOnChar (sep : Char) (cs : List Char) : List String :=
  go cs []
where
  go : List Char → List Char → List String
  | [], cur => [String.mk cur.reverse]
  | c :: rest, cur =>
    if c = sep then String.mk cur.reverse :: go rest [] else go rest (c :: cur)

/-- Worker for jsSplitWs: when skipping is true the scanner is inside a
whitespace run whose chunk boundary has already been emitted. -/
def jsSplitWsGo : Bool → List Char → List Char → List String
  | _, [], cur => [String.mk cur.reverse]
  | true, c :: rest, cur =>
    if isWsChar c then jsSplitWsGo true rest cur else jsSplitWsGo false rest (c :: cur)
  | false, c :: rest, cur =>
    if isWsChar c then String.mk cur.reverse :: jsSplitWsGo true rest []
    else jsSplitWsGo false rest (c :: cur)

/-- Model of the JS split on the whitespace-run regex: separators are maximal
whitespace runs, and a leading or trailing run contributes an empty chunk. -/
def jsSplitWs (s : String) : List String :=
  jsSplitWsGo false s.toList []

/-! ## JSON values and a model of JSON.parse

Numbers are carried as integers (a fractional or exponent part is consumed
by the parser but truncated in the stored value; no claim inspects numeric
result fields). Object field lookup takes the last binding, as JS object
literals with duplicate keys do. -/

inductive Json where
  | null
  | jbool (b : Bool)
  | jnum (n : Int)
  | jstr (s : String)
  | jarr (xs : List Json)
  | jobj (fs : List (String × Json))

/-- A JS value: a JSON value or undefined (absent property). -/
inductive JsVal where
  | jsUndefined
  | val (j : Json)

/-- JS truthiness of a value. -/
def JsVal.truthy : JsVal → Bool
  | .jsUndefined => false
  | .val .null => false
  | .val (.jbool b) => b
  | .val (.jnum n) => n ≠ 0
  | .val (.jstr s) => s ≠ ""
  | .val (.jarr _) => true
  | .val (.jobj _) => true

/-- Property access: undefined on a missing key or a non-object. -/
def jGetV (j : Json) (k : String) : JsVal :=
  match j with
  | .jobj fs =>
    match (fs.reverse.find? (fun p => p.1 == k)) with
    | some p => .val p.2
    | none => .jsUndefined
  | _ => .jsUndefined

/-- The short-circuiting JS or of two values. -/
def jsOrV (a b : JsVal) : JsVal := if a.truthy then a else b

/-- JS string conversion of the values that can reach a SearchResult field. -/
def jsToString : JsVal → String
  | .jsUndefined => "undefined"
  | .val .null => "null"
  | .val (.jbool b) => if b then "true" else "false"
  | .val (.jnum n) => toString n
  | .val (.jstr s) => s
  | .val (.jarr _) => ""
  | .val (.jobj _) => "[object Object]"

def skipWsL (cs : List Char) : List Char := cs.dropWhile isWsChar

/-- Value of one hexadecimal digit, computed on character codes. -/
def hexVal (c : Char) : Option Nat :=
  let n := c.toNat
  if 48 ≤ n && n ≤ 57 then some (n - 48)
  else if 97 ≤ n && n ≤ 102 then some (n - 87)
  else if 65 ≤ n && n ≤ 70 then some (n - 55)
  else none

/-- Parse the body of a JSON string literal after the opening quote. -/
def parseStringBody : Nat → List Char → List Char → Option (String × List Char)
  | 0, _, _ => none
  | _, [], _ => none
  | f + 1, c :: rest, acc =>
    if c = '"' then some (String.mk acc.reverse, rest)
    else if c = '\\' then
      match rest with
      | [] => none
      | e :: rest2 =>
        if e = '"' then parseStringBody f rest2 ('"' :: acc)
        else if e = '\\' then parseStringBody f rest2 ('\\' :: acc)
        else if e = '/' then parseStringBody f rest2 ('/' :: acc)
        else if e = 'n' then parseStringBody f rest2 ('\n' :: acc)
        else if e = 't' then parseStringBody f rest2 ('\t' :: acc)
        else if e = 'r' then parseStringBody f rest2 ('\r' :: acc)
        else if e = 'b' then parseStringBody f rest2 (Char.ofNat 8 :: acc)
        else if e = 'f' then parseStringBody f rest2 (Char.ofNat 12 :: acc)
        else if e = 'u' then
          match rest2 with
          | h1 :: h2 :: h3 :: h4 :: rest3 =>
            match hexVal h1, hexVal h2, hexVal h3, hexVal h4 with
            | some a, some b, some c3, some d =>
              parseStringBody f rest3 (Char.ofNat (((a * 16 + b) * 16 + c3) * 16 + d) :: acc)
            | _, _, _, _ => none
          | _ => none
        else none
    else parseStringBody f rest (c :: acc)

/-- Parse a JSON number; the fractional and exponent parts are consumed but
the stored value is the signed integer part. -/
def parseNumber (cs : List Char) : Option (Int × List Char) :=
  let (neg, cs1) := match cs with
    | '-' :: rest => (true, rest)
    | _ => (false, cs)
  let ds := cs1.takeWhile isDigitChar
  if ds.isEmpty then none
  else
    let n : Nat := ds.foldl (fun acc c => 10 * acc + (c.toNat - 48)) 0
    let rest1 := cs1.drop ds.length
    let rest2 := match rest1 with
      | '.' :: r =>
        let fs := r.takeWhile isDigitChar
        if fs.isEmpty then rest1 else r.drop fs.length
      | _ => rest1
    let rest3 := match rest2 with
      | 'e' :: r => consumeExp r rest2
      | 'E' :: r => consumeExp r rest2
      | _ => rest2
    some (if neg then -(n : Int) else (n : Int), rest3)
where
  consumeExp (r orig : List Char) : List Char :=
    let r2 := match r with
      | '+' :: t => t
      | '-' :: t => t
      | _ => r
    let es := r2.takeWhile isDigitChar
    if es.isEmpty then orig else r2.drop es.length

mutual

/-- Fuel-bounded recursive-descent JSON value parser. -/
def parseVal : Nat → List Char → Option (Json × List Char)
  | 0, _ => none
  | f + 1, cs =>
    let cs := skipWsL cs
    match cs with
    | [] => none
    | '"' :: rest =>
      match parseStringBody (f + 1) rest [] with
      | some (s, rest2) => some (.jstr s, rest2)
      | none => none
    | '[' :: rest =>
      match skipWsL rest with
      | ']' :: rest2 => some (.jarr [], rest2)
      | rest2 => parseArrItems f rest2 []
    | '{' :: rest =>
      match skipWsL rest with
      | '}' :: rest2 => some (.jobj [], rest2)
      | rest2 => parseObjItems f rest2 []
    | 't' :: _ => (dropLit "true".toList cs).map (fun r => (.jbool true, r))
    | 'f' :: _ => (dropLit "false".toList cs).map (fun r => (.jbool false, r))
    | 'n' :: _ => (dropLit "null".toList cs).map (fun r => (.null, r))
    | _ => (parseNumber cs).map (fun p => (.jnum p.1, p.2))

/-- Parse the remaining items of a JSON array (at least one item expected). -/
def parseArrItems : Nat → List Char → List Json → Option (Json × List Char)
  | 0, _, _ => none
  | f + 1, cs, acc =>
    match parseVal f cs with
    | none => none
    | some (v, rest) =>
      match skipWsL rest with
      | ',' :: rest2 => parseArrItems f (skipWsL rest2) (v :: acc)
      | ']' :: rest2 => some (.jarr (v :: acc).reverse, rest2)
      | _ => none

/-- Parse the remaining entries of a JSON object (at least one expected). -/
def parseObjItems : Nat → List Char → List (String × Json) → Option (Json × List Char)
  | 0, _, _ => none
  | f + 1, cs, acc =>
    match cs with
    | '"' :: rest =>
      match parseStringBody (f + 1) rest [] with
      | none => none
      | some (k, rest2) =>
        match skipWsL rest2 with
        | ':' :: rest3 =>
          match parseVal f (skipWsL rest3) with
          | none => none
          | some (v, rest4) =>
            match skipWsL rest4 with
            | ',' :: rest5 => parseObjItems f (skipWsL rest5) ((k, v) :: acc)
            | '}' :: rest5 => some (.jobj ((k, v) :: acc).reverse, rest5)
            | _ => none
        | _ => none
    | _ => none

end

/-- Model of JSON.parse: some value on success, none where JS throws. -/
def jsonParse (s : String) : Option Json :=
  let cs := s.toList
  match parseVal (4 * cs.length + 8) cs with
  | some (v, rest) => if (skipWsL rest).isEmpty then some v else none
  | none => none

/-! ## Search results and the Result Normalizer variants (lib/searxng.ts) -/

/-- The SearchResult record of src/frontend/src/lib/searxng.ts. -/
structure SearchResult where
  title : String
  url : String
  content : String
  engine : String
deriving DecidableEq

/-- Embedding of parseResultItem (src/unnamed/part_001 and part_002): field
resolution title / link-then-url / snippet-then-content / engine with the
JS falsy-coalescing defaults. The inline map of lib/searxng.ts
searchWebInternal resolves the same fields with the same defaults. -/
def parseResultItem (r : Json) : SearchResult :=
  { title := jsToString (jsOrV (jGetV r "title") (.val (.jstr "Untitled")))
    url := jsToString (jsOrV (jsOrV (jGetV r "link") (jGetV r "url")) (.val (.jstr "")))
    content := jsToString (jsOrV (jsOrV (jGetV r "snippet") (jGetV r "content")) (.val (.jstr "")))
    engine := jsToString (jsOrV (jGetV r "engine") (.val (.jstr "searxng"))) }

/-- Embedding of the inline result mapping of searchWebDirect: fields title /
url / content / engine with the Untitled, empty and unknown defaults. -/
def parseDirectItem (r : Json) : SearchResult :=
  { title := jsToString (jsOrV (jGetV r "title") (.val (.jstr "Untitled")))
    url := jsToString (jsOrV (jGetV r "url") (.val (.jstr "")))
    content := jsToString (jsOrV (jGetV r "content") (.val (.jstr "")))
    engine := jsToString (jsOrV (jGetV r "engine") (.val (.jstr "unknown"))) }

/-- Result Normalizer of src/frontend/src/lib/searxng.ts (searchWebInternal
lines 38-58): parse the raw string; an array maps its first limit items
through the field resolution; any other parsed shape leaves the result list
empty; a parse failure is caught and the raw string is wrapped into a single
placeholder result. -/
def normalizeResultsFE (s : String) (limit : Nat) : List SearchResult :=
  match jsonParse s with
  | some (.jarr xs) => (xs.take limit).map parseResultItem
  | some _ => []
  | none => [{ title := "Search Results", url := "", content := s, engine := "searxng" }]

/-- Test for the part_002 newline-recovery loop: the parsed line object is
kept when it is truthy and has a truthy title, url or link property. -/
def resultLike (j : Json) : Bool :=
  (JsVal.val j).truthy &&
    ((jGetV j "title").truthy || (jGetV j "url").truthy || (jGetV j "link").truthy)

/-- Result Normalizer of src/unnamed/part_002 (searchWebInternal lines
51-99): strict parse accepting three shapes (top-level array, object with a
results array, single result-like object); on parse failure, recover
newline-separated JSON object lines, skipping lines that do not parse or are
not result-like. An empty output signals failed or empty extraction to the
caller, which then falls back; the normalizer itself never throws. -/
def normalizeResultsP2 (s : String) (limit : Nat) : List SearchResult :=
  match jsonParse s with
  | some (.jarr xs) => (xs.take limit).map parseResultItem
  | some (.jobj fs) =>
    match jGetV (.jobj fs) "results" with
    | .val (.jarr xs) => (xs.take limit).map parseResultItem
    | _ =>
      if (jGetV (.jobj fs) "title").truthy || (jGetV (.jobj fs) "url").truthy then
        [parseResultItem (.jobj fs)]
      else []
  | some _ => []
  | none =>
    let lineStrs := (splitOnChar '\n' s.toList).filter (fun l => jsTrim l ≠ "")
    let parsed := lineStrs.filterMap (fun l =>
      match jsonParse l with
      | some j => if resultLike j then some (parseResultItem j) else none
      | none => none)
    if parsed.length > 0 then parsed.take limit else []

/-! ## Search Gateway (searchWebInternal / searchWebDirect)

The primary path (the LangChain SearxngSearch tool) and the fallback fetch
are oracles. A RawPrimary.rother stands for a resolved tool value that is
not a string. -/

inductive RawPrimary where
  | rstr (s : String)
  | rother

/-- Resolved value of the direct fetch: HTTP success flag plus the outcome of
response.json(), which itself throws on a malformed body. -/
structure FetchResp where
  ok : Bool
  body : Except Unit Json

structure GatewayEnv where
  primary : Except Unit RawPrimary
  fetch : Except Unit FetchResp

/-- Output of a gateway run: the result list plus whether the direct
HTTP fallback path was invoked. -/
structure GatewayRun where
  results : List SearchResult
  direct : Bool
deriving DecidableEq

/-- Embedding of searchWebDirect (both searxng.ts variants): a network
error, a non-success status, a malformed body, or a body whose results
property is not an array, all degrade to the empty list. -/
def searchWebDirect (fetch : Except Unit FetchResp) (limit : Nat) : List SearchResult :=
  match fetch with
  | .error _ => []
  | .ok resp =>
    if !resp.ok then []
    else
      match resp.body with
      | .error _ => []
      | .ok data =>
        match jGetV data "results" with
        | .val (.jarr xs) => (xs.take limit).map parseDirectItem
        | _ => []

/-- Normalization step of src/unnamed/part_001 searchWebInternal: wrap the
payload in array brackets unless it already looks like an array, then strict
parse; none models the caught parse exception. -/
def normalizeResultsA (s : String) (limit : Nat) : Option (List SearchResult) :=
  let jsonString :=
    match s.toList with
    | '[' :: _ => s
    | _ => "[" ++ s ++ "]"
  match jsonParse jsonString with
  | none => none
  | some (.jarr xs) => some ((xs.take limit).map parseResultItem)
  | some (.jobj fs) =>
    match jGetV (.jobj fs) "results" with
    | .val (.jarr xs) => some ((xs.take limit).map parseResultItem)
    | _ =>
      if (jGetV (.jobj fs) "title").truthy || (jGetV (.jobj fs) "url").truthy then
        some [parseResultItem (.jobj fs)]
      else some []
  | some _ => some []

/-- Embedding of searchWebInternal from src/unnamed/part_001 (lines 30-76):
primary throw, the no-results sentinel string, a non-string tool value, a
parse failure, or zero extracted results all route to searchWebDirect. -/
def searchWebInternalA (env : GatewayEnv) (limit : Nat) : GatewayRun :=
  match env.primary with
  | .error _ => { results := searchWebDirect env.fetch limit, direct := true }
  | .ok .rother => { results := searchWebDirect env.fetch limit, direct := true }
  | .ok (.rstr s) =>
    if s == "No good results found." then
      { results := searchWebDirect env.fetch limit, direct := true }
    else
      match normalizeResultsA s limit with
      | none => { results := searchWebDirect env.fetch limit, direct := true }
      | some rs =>
        if rs.isEmpty then { results := searchWebDirect env.fetch limit, direct := true }
        else { results := rs, direct := false }

/-- Embedding of searchWebInternal from src/frontend/src/lib/searxng.ts
(lines 27-66): only a thrown primary invokes searchWebDirect; a resolved
primary goes through normalizeResultsFE and its output is returned as is,
with no fallback on zero extracted results. -/
def searchWebInternalFE (env : GatewayEnv) (limit : Nat) : GatewayRun :=
  match env.primary with
  | .error _ => { results := searchWebDirect env.fetch limit, direct := true }
  | .ok .rother => { results := [], direct := false }
  | .ok (.rstr s) => { results := normalizeResultsFE s limit, direct := false }

/-- Primary-path failure for the part_001 gateway, as the claim words it:
the tool threw or zero results were extracted from its payload. -/
def primaryFailsA (p : Except Unit RawPrimary) (limit : Nat) : Bool :=
  match p with
  | .error _ => true
  | .ok .rother => true
  | .ok (.rstr s) =>
    s == "No good results found." ||
      (match normalizeResultsA s limit with
       | none => true
       | some rs => rs.isEmpty)

/-- Fallback-path failure as the claim words it: network error, non-success
status, or malformed body (including a body without a results array). -/
def directFails (fetch : Except Unit FetchResp) : Bool :=
  match fetch with
  | .error _ => true
  | .ok resp =>
    !resp.ok ||
      (match resp.body with
       | .error _ => true
       | .ok data =>
         match jGetV data "results" with
         | .val (.jarr _) => false
         | _ => true)

/-- Index-passing map, standing for the JS Array.prototype.map callback with
its second (index) argument. -/
def enumMapFrom (k : Nat) (f : Nat → α → β) : List α → List β
  | [] => []
  | a :: rest => f k a :: enumMapFrom (k + 1) f rest

theorem enumMapFrom_getElem (f : Nat → α → β) :
    (l : List α) → (k i : Nat) → (enumMapFrom k f l)[i]? = (l[i]?).map (f (k + i))
  | [], _, i => by simp [enumMapFrom]
  | a :: rest, k, 0 => by simp [enumMapFrom]
  | a :: rest, k, i + 1 => by
    have h := enumMapFrom_getElem f rest (k + 1) i
    simp [enumMapFrom, h, Nat.add_assoc, Nat.add_comm 1 i]

/-- Numbered source list of formatSourcesForPrompt, before joining: the
entry at position index carries the 1-based marker index plus 1. -/
def promptLines (sources : List SearchResult) : List String :=
  enumMapFrom 0 (fun index source =>
    "[" ++ toString (index + 1) ++ "] " ++ source.title ++ "\nURL: " ++ source.url ++
      "\n" ++ source.content) sources

/-- Embedding of formatSourcesForPrompt (src/frontend/src/lib/searxng.ts
lines 116-125). -/
def formatSourcesForPrompt (sources : List SearchResult) : String :=
  if sources.length = 0 then ""
  else String.intercalate "\n\n" (promptLines sources)

/-! ## Query Classifier stage 1: classifyQueryHeuristic (lib/llm.ts)

Each regex of the source is hand-translated into a decidable matcher over
the character list. The patterns run on the lowercased, trimmed query, so
the ignore-case flags are immaterial. -/

inductive SearchDecision where
  | SEARCH
  | NO_SEARCH
  | AMBIGUOUS
deriving DecidableEq

structure ClassificationResult where
  decision : SearchDecision
  query : String
deriving DecidableEq

/-- Trailing character class of the greeting patterns: whitespace and the
punctuation marks bang, dot, comma, question mark, repeated to the end. -/
def tailPunct (cs : List Char) : Bool :=
  cs.all (fun c => isWsChar c || c = '!' || c = '.' || c = ',' || c = '?')

/-- Anchored word then a continuation on the remainder. -/
def afterLit (w : String) (k : List Char → Bool) (cs : List Char) : Bool :=
  match dropLit w.toList cs with
  | some rest => k rest
  | none => false

/-- Greeting pattern: hi, hello, hey, greetings, or good plus optional
whitespace plus morning, afternoon or evening, then trailing punctuation. -/
def nsGreeting (cs : List Char) : Bool :=
  ["hi", "hello", "hey", "greetings"].any (fun w => afterLit w tailPunct cs) ||
    afterLit "good"
      (fun r =>
        let r2 := r.dropWhile isWsChar
        ["morning", "afternoon", "evening"].any (fun w => afterLit w tailPunct r2))
      cs

/-- Thanks pattern: thanks, thank you (optional gap), thx or ty, then
trailing punctuation. -/
def nsThanks (cs : List Char) : Bool :=
  ["thanks", "thx", "ty"].any (fun w => afterLit w tailPunct cs) ||
    afterLit "thank" (fun r => afterLit "you" tailPunct (r.dropWhile isWsChar)) cs

/-- Farewell pattern: bye, goodbye, see you (optional gap) or later, then
trailing punctuation. -/
def nsBye (cs : List Char) : Bool :=
  ["bye", "goodbye", "later"].any (fun w => afterLit w tailPunct cs) ||
    afterLit "see" (fun r => afterLit "you" tailPunct (r.dropWhile isWsChar)) cs

/-- Capability question: what, optional gap, can or do, optional gap, you,
optional gap, do, anchored at the start only. -/
def nsWhatDo (cs : List Char) : Bool :=
  afterLit "what"
    (fun r =>
      let r2 := r.dropWhile isWsChar
      ["can", "do"].any (fun w =>
        afterLit w
          (fun r3 =>
            afterLit "you"
              (fun r4 => (dropLit "do".toList (r4.dropWhile isWsChar)).isSome)
              (r3.dropWhile isWsChar))
          r2))
    cs

/-- Identity question: who, optional gap, are, optional gap, you. -/
def nsWhoAreYou (cs : List Char) : Bool :=
  afterLit "who"
    (fun r =>
      afterLit "are"
        (fun r2 => (dropLit "you".toList (r2.dropWhile isWsChar)).isSome)
        (r.dropWhile isWsChar))
    cs

/-- Wellbeing question: how, optional gap, are, optional gap, you. -/
def nsHowAreYou (cs : List Char) : Bool :=
  afterLit "how"
    (fun r =>
      afterLit "are"
        (fun r2 => (dropLit "you".toList (r2.dropWhile isWsChar)).isSome)
        (r.dropWhile isWsChar))
    cs

/-- Bare help request: help then only whitespace to the end. -/
def nsHelp (cs : List Char) : Bool :=
  afterLit "help" (fun r => r.all isWsChar) cs

/-- Simple arithmetic: digits, optional gap, one arithmetic operator,
optional gap, digits, anchored at the start only. -/
def nsMath (cs : List Char) : Bool :=
  let ds := cs.takeWhile isDigitChar
  if ds.isEmpty then false
  else
    match (cs.drop ds.length).dropWhile isWsChar with
    | c :: r2 =>
      if c = '+' || c = '-' || c = '*' || c = '/' || c = '%' || c = '^' then
        !((r2.dropWhile isWsChar).takeWhile isDigitChar).isEmpty
      else false
    | [] => false

/-- Calculation request: calculate, compute or solve, mandatory whitespace,
then a digit. -/
def nsCalc (cs : List Char) : Bool :=
  ["calculate", "compute", "solve"].any (fun w =>
    afterLit w
      (fun r =>
        let ws := r.takeWhile isWsChar
        !ws.isEmpty &&
          (match r.drop ws.length with
           | c :: _ => isDigitChar c
           | [] => false))
      cs)

/-- The ordered no-search pattern bank of classifyQueryHeuristic; the
disjunction mirrors the first-match-returns loop. -/
def noSearchMatch (cs : List Char) : Bool :=
  nsGreeting cs || nsThanks cs || nsBye cs || nsWhatDo cs || nsWhoAreYou cs ||
    nsHowAreYou cs || nsHelp cs || nsMath cs || nsCalc cs

/-- Wh-question with auxiliary: a wh-word, mandatory whitespace, an
auxiliary verb, then one more whitespace character, anchored at the start. -/
def spWhAux (cs : List Char) : Bool :=
  ["who", "what", "when", "where", "why", "how"].any (fun w =>
    afterLit w
      (fun r =>
        let ws := r.takeWhile isWsChar
        !ws.isEmpty &&
          (["is", "are", "was", "were", "did", "does", "do", "will", "would", "can",
              "could"].any (fun a =>
            afterLit a
              (fun r3 =>
                match r3 with
                | c :: _ => isWsChar c
                | [] => false)
              (r.drop ws.length))))
      cs)

/-- One alternative of a word-boundary pattern: a head word followed by
further words, each preceded by a whitespace gap that is mandatory when the
flag is true (backslash-s-plus) and optional otherwise. -/
structure BAlt where
  head : List Char
  rest : List (Bool × List Char)

def matchSegs : List (Bool × List Char) → List Char → Option (List Char)
  | [], r => some r
  | (needWs, w) :: more, r =>
    let ws := r.takeWhile isWsChar
    if needWs && ws.isEmpty then none
    else
      match dropLit w (r.drop ws.length) with
      | some r2 => matchSegs more r2
      | none => none

def matchBAlt (cs : List Char) (alt : BAlt) : Option (List Char) :=
  match dropLit alt.head cs with
  | some r => matchSegs alt.rest r
  | none => none

/-- Word boundary holds before the match position. -/
def bdryBefore (prev : Option Char) : Bool :=
  match prev with
  | none => true
  | some c => !isWordChar c

/-- Word boundary holds after the match. -/
def bdryAfter (rest : List Char) : Bool :=
  match rest with
  | [] => true
  | c :: _ => !isWordChar c

/-- Scan every position for a word-boundary-delimited alternative. -/
def scanBounded (alts : List BAlt) : Option Char → List Char → Bool
  | prev, [] =>
    bdryBefore prev &&
      alts.any (fun a =>
        match matchBAlt [] a with
        | some r => bdryAfter r
        | none => false)
  | prev, c :: rest =>
    (bdryBefore prev &&
        alts.any (fun a =>
          match matchBAlt (c :: rest) a with
          | some r => bdryAfter r
          | none => false)) ||
      scanBounded alts (some c) rest

def word1 (w : String) : BAlt := { head := w.toList, rest := [] }

def word2 (a b : String) (needWs : Bool) : BAlt :=
  { head := a.toList, rest := [(needWs, b.toList)] }

/-- Recency terms: latest, recent, current, today, yesterday, now, this
week, this month, this year. -/
def spRecency (cs : List Char) : Bool :=
  scanBounded
    [word1 "latest", word1 "recent", word1 "current", word1 "today", word1 "yesterday",
      word1 "now", word2 "this" "week" false, word2 "this" "month" false,
      word2 "this" "year" false] none cs

/-- News terms: news, update, announcement, release, launched. -/
def spNews (cs : List Char) : Bool :=
  scanBounded
    [word1 "news", word1 "update", word1 "announcement", word1 "release",
      word1 "launched"] none cs

/-- Market and weather terms: price, cost, weather, stock, score, rate. -/
def spPrice (cs : List Char) : Bool :=
  scanBounded
    [word1 "price", word1 "cost", word1 "weather", word1 "stock", word1 "score",
      word1 "rate"] none cs

/-- Biographical terms: born, died, age, height, net worth, salary. -/
def spBio (cs : List Char) : Bool :=
  scanBounded
    [word1 "born", word1 "died", word1 "age", word1 "height",
      word2 "net" "worth" false, word1 "salary"] none cs

/-- How-to terms: how to (mandatory gap), tutorial, guide, steps, install. -/
def spHowTo (cs : List Char) : Bool :=
  scanBounded
    [word2 "how" "to" true, word1 "tutorial", word1 "guide", word1 "steps",
      word1 "install"] none cs

/-- Comparison terms: best, top, review, comparison, vs, versus. -/
def spBest (cs : List Char) : Bool :=
  scanBounded
    [word1 "best", word1 "top", word1 "review", word1 "comparison", word1 "vs",
      word1 "versus"] none cs

/-- Four-digit year 20xx delimited by word boundaries. -/
def spYearScan : Option Char → List Char → Bool
  | _, [] => false
  | prev, c :: rest =>
    (c = '2' && bdryBefore prev &&
        (match rest with
         | '0' :: a :: b :: rest2 => isDigitChar a && isDigitChar b && bdryAfter rest2
         | _ => false)) ||
      spYearScan (some c) rest

/-- Role-title terms: president, ceo, founder, minister, leader. -/
def spRole (cs : List Char) : Bool :=
  scanBounded
    [word1 "president", word1 "ceo", word1 "founder", word1 "minister",
      word1 "leader"] none cs

/-- Geography terms: population, capital, currency, country. -/
def spGeo (cs : List Char) : Bool :=
  scanBounded
    [word1 "population", word1 "capital", word1 "currency", word1 "country"] none cs

/-- The ordered search pattern bank of classifyQueryHeuristic. -/
def searchMatch (cs : List Char) : Bool :=
  spWhAux cs || spRecency cs || spNews cs || spPrice cs || spBio cs || spHowTo cs ||
    spBest cs || spYearScan none cs || spRole cs || spGeo cs

/-- Proper-noun test of the source: the word starts with an uppercase ASCII
letter followed by a lowercase ASCII letter. -/
def properNounWord (w : String) : Bool :=
  match w.toList with
  | a :: b :: _ => isUpperAlpha a && isLowerAlpha b
  | _ => false

/-- Embedding of classifyQueryHeuristic (src/frontend/src/lib/llm.ts lines
53-97 and src/unnamed/part_003 lines 53-97, which are identical): the
pattern banks run on the lowercased trimmed copy, the proper-noun detector
runs on the words of the original string after the first, and the no-search
bank short-circuits everything else. The function is pure: no model call. -/
def classifyQueryHeuristic (query : String) : SearchDecision :=
  let q := (jsTrim (toLowerStr query)).toList
  if noSearchMatch q then .NO_SEARCH
  else if searchMatch q then .SEARCH
  else
    let words := jsSplitWs query
    if (words.drop 1).any properNounWord then .SEARCH
    else .AMBIGUOUS

/-! ## Query Classifier stage 2: classifyAndRewrite output parsing

The model call is an oracle resolving to the content string or throwing.
The deliberation-marker stripping and the recovery path inside the think
block are embedded from lib/llm.ts lines 174-215 (identical in
src/unnamed/part_003 lines 148-189). -/

def thinkOpen : List Char := "<think>".toList

def thinkClose : List Char := "</think>".toList

/-- Global case-insensitive removal of non-greedy think blocks: each match
removes from an opening marker to the nearest closing marker, and scanning
resumes after the removed block. An unclosed opening marker never matches. -/
def stripThink : Nat → List Char → List Char
  | 0, cs => cs
  | f + 1, cs =>
    match splitAtCIL thinkOpen cs with
    | none => cs
    | some (pre, afterOpen) =>
      match splitAtCIL thinkClose afterOpen with
      | none => cs
      | some (_, afterClose) => pre ++ stripThink f afterClose

/-- Content of the first think block, when a complete block exists. -/
def innerThink (cs : List Char) : Option (List Char) :=
  match splitAtCIL thinkOpen cs with
  | none => none
  | some (_, afterOpen) =>
    match splitAtCIL thinkClose afterOpen with
    | none => none
    | some (content, _) => some content

/-- Capture of the dot-plus group after SEARCH colon and optional
whitespace: the rest of the line from the first non-whitespace character,
or, when only whitespace remains, the backtracked single character the
greedy whitespace star gives back. -/
def captureAfterSearch (tail : List Char) : Option (List Char) :=
  let rest := tail.dropWhile isWsChar
  if !rest.isEmpty then some (rest.takeWhile notNL)
  else
    match (tail.reverse.find? notNL) with
    | some c => some [c]
    | none => none

/-- First case-insensitive SEARCH-colon occurrence whose capture group can
match, scanning later occurrences when one cannot complete. -/
def searchCaptureIn : Nat → List Char → Option (List Char)
  | 0, _ => none
  | f + 1, cs =>
    match splitAtCIL "search:".toList cs with
    | none => none
    | some (_, tail) =>
      match captureAfterSearch tail with
      | some cap => some cap
      | none => searchCaptureIn f tail

/-- Output extraction of classifyAndRewrite: strip think blocks and trim;
when nothing remains, recover a SEARCH capture or a NO_SEARCH marker from
inside the first think block. -/
def extractOutput (raw : String) : String :=
  let stripped := jsTrim (String.mk (stripThink (raw.length + 1) raw.toList))
  if stripped == "" then
    match innerThink raw.toList with
    | none => stripped
    | some content =>
      match searchCaptureIn (content.length + 1) content with
      | some cap => "SEARCH: " ++ jsTrim (String.mk cap)
      | none =>
        if containsCIL "no_search".toList content then "NO_SEARCH" else stripped
  else stripped

/-- Parse step of classifyAndRewrite on the extracted output: uppercase
starts-with SEARCH colon first, then a NO_SEARCH occurrence anywhere, then
the fail-safe default. -/
def parseClassifierOutput (output : String) (currentQuery : String) : ClassificationResult :=
  match dropLit "SEARCH:".toList (toUpperStr output).toList with
  | some _ =>
    let rewritten := jsTrim (String.mk (output.toList.drop 7))
    { decision := .SEARCH, query := if rewritten == "" then currentQuery else rewritten }
  | none =>
    if containsSubL "NO_SEARCH".toList (toUpperStr output).toList then
      { decision := .NO_SEARCH, query := currentQuery }
    else
      { decision := .SEARCH, query := currentQuery }

/-- Embedding of classifyAndRewrite (lib/llm.ts lines 154-220 and
src/unnamed/part_003 lines 128-194): the model response is an oracle, a
thrown call maps to the fail-safe SEARCH with the original query, and a
resolved call goes through output extraction and parsing. -/
def classifyAndRewrite (resp : Except Unit String) (currentQuery : String) :
    ClassificationResult :=
  match resp with
  | .error _ => { decision := .SEARCH, query := currentQuery }
  | .ok raw => parseClassifierOutput (extractOutput raw) currentQuery

/-- Claim-side reading of the spec sentence for C5: some line of the raw
output begins with SEARCH colon, case-insensitively. -/
def someLineBeginsWithSearch (raw : String) : Bool :=
  (splitOnChar '\n' raw.toList).any (fun l =>
    (dropLitCI "search:".toList l.toList).isSome)

/-! ## Chat POST handler (src/frontend/src/app/api/chat/route.ts)

The file carries two handler versions: version A (tool-calling agent loop,
lines 79-285) and version B (search-then-prompt, lines 294-468). Wire
messages, LangChain messages, stream events and the handler outcome are
embedded below; the model, search, and store calls are oracles. -/

/-- One entry of a UIMessage parts array. -/
inductive Part where
  | text (s : String)
  | otherPart
deriving DecidableEq

/-- The content field shapes tolerated by extractTextFromMessage. -/
inductive MsgContent where
  | cstr (s : String)
  | carr (ps : List Part)
  | cnone
deriving DecidableEq

structure UIMessage where
  role : String
  parts : Option (List Part)
  content : MsgContent
deriving DecidableEq

/-- Embedding of extractTextFromMessage (route.ts lines 16-27, inlined again
at lines 310-323): a parts array concatenates its text parts; otherwise a
string content is taken whole; otherwise the first text entry of a content
array; otherwise empty. -/
def extractTextFromMessage (m : UIMessage) : String :=
  match m.parts with
  | some ps =>
    String.join (ps.filterMap (fun p =>
      match p with
      | .text s => some s
      | .otherPart => none))
  | none =>
    match m.content with
    | .cstr s => s
    | .carr ps =>
      match ps.find? (fun p =>
        match p with
        | .text _ => true
        | .otherPart => false) with
      | some (.text s) => s
      | _ => ""
    | .cnone => ""

structure ToolCall where
  name : String
  args : List (String × Json)
  id : Option String

structure ModelResp where
  content : String
  tool_calls : List ToolCall

/-- LangChain message list entries as the handler builds them. -/
inductive LCMessage where
  | system (s : String)
  | human (s : String)
  | ai (s : String)
  | aiTools (resp : ModelResp)
  | tool (content : String) (id : String)

/-- One entry of the data-sources stream part (route.ts lines 236-244). -/
structure SourceEntry where
  title : String
  url : String
  snippet : String
  index : Nat
deriving DecidableEq

inductive StreamEvent where
  | sourcesEvent (data : List SourceEntry)
  | token (s : String)
  | streamErr
deriving DecidableEq

/-- Observable outcome of a POST call: a 400 response, the 500 response of
the outer catch, or a streamed response with its event sequence, whether the
assistant message was persisted, and the final completion text. -/
inductive PostOutcome where
  | badRequest (msg : String)
  | internalError
  | streamed (events : List StreamEvent) (persisted : Bool) (completion : String)
deriving DecidableEq

def isBadRequest : PostOutcome → Bool
  | .badRequest _ => true
  | _ => false

def isSourcesEvent : StreamEvent → Bool
  | .sourcesEvent _ => true
  | _ => false

/-- Parsed request body; messages is none when the field is missing or not
an array, and chatId is none when that field is missing or falsy (the code
guards every use with a truthiness check). A malformed body (request.json()
throwing) is the none case of the Option handed to the handler. -/
structure ReqBody where
  messages : Option (List UIMessage)
  chatId : Option String

/-- Oracles the agent loop consults: the tool-bound model, the structured
search call, and the other registered tools. -/
structure ToolEnv where
  invokeTools : List LCMessage → Except Unit ModelResp
  search : String → Except Unit (List SearchResult)
  toolExists : String → Bool
  toolInvoke : String → List (String × Json) → Except Unit String

/-- Oracles of handler version A. The titleUpdate oracle models the
fire-and-forget title promise chain whose failures are swallowed by its own
catch handlers; the outcome never reads it. -/
structure EnvA where
  rewriteQuery : List (String × String) → String → Except Unit String
  tools : ToolEnv
  dbUser : Except Unit Unit
  titleUpdate : Except Unit Unit
  stream : List LCMessage → Except Unit (List String)
  dbAssist : Except Unit Unit

/-- The web-search tool-result text of executeTool (route.ts lines 61-63):
the numbering restarts at 1 for each execution. -/
def toolResultLines (sources : List SearchResult) : List String :=
  enumMapFrom 0 (fun i r =>
    "[" ++ toString (i + 1) ++ "] " ++ r.title ++ "\nURL: " ++ r.url ++ "\n" ++ r.content)
    sources

def formatToolResult (sources : List SearchResult) : String :=
  String.intercalate "\n\n" (toolResultLines sources)

/-- Embedding of executeTool (route.ts lines 42-77): web_search runs the
gateway on the pre-rewritten query and formats its own numbered list; other
known tools are invoked directly; an unknown tool reports itself; a thrown
search or tool invocation propagates. -/
def executeTool (te : ToolEnv) (toolName : String) (args : List (String × Json))
    (rewrittenQuery : String) : Except Unit (String × List SearchResult) :=
  if toolName == "web_search" then
    match te.search rewrittenQuery with
    | .error e => .error e
    | .ok sources =>
      if sources.length = 0 then .ok ("No search results found for this query.", [])
      else .ok (formatToolResult sources, sources)
  else if te.toolExists toolName then
    match te.toolInvoke toolName args with
    | .error e => .error e
    | .ok r => .ok (r, [])
  else .ok ("Tool " ++ toolName ++ " not found", [])

/-- The tool_call_id fallback of the ToolMessage push (route.ts line 209):
a missing or empty (falsy) id falls back to the tool name. -/
def toolCallId (tc : ToolCall) : String :=
  match tc.id with
  | some i => if i == "" then tc.name else i
  | none => tc.name

/-- Running state of the agent loop. -/
structure LoopState where
  msgs : List LCMessage
  sources : List SearchResult
  failed : Bool
  iters : Nat

/-- The per-iteration tool-call execution (route.ts lines 193-212): sources
collected before a thrown execution are kept, the exception aborts the rest
of the calls. -/
def runToolCalls (te : ToolEnv) (rw : String) :
    List ToolCall → LoopState → Except LoopState LoopState
  | [], st => .ok st
  | tc :: rest, st =>
    match executeTool te tc.name tc.args rw with
    | .error _ => .error st
    | .ok (result, sources) =>
      let st1 : LoopState :=
        { st with
          sources := if sources.length > 0 then st.sources ++ sources else st.sources
          msgs := st.msgs ++ [.tool result (toolCallId tc)] }
      runToolCalls te rw rest st1

/-- The agent loop body (route.ts lines 164-218), fuel-bounded by
MAX_ITERATIONS: a response with no tool calls breaks without being pushed;
a throw anywhere in the iteration marks the tool-calling path failed. -/
def agentGo (te : ToolEnv) (rw : String) : Nat → LoopState → LoopState
  | 0, st => st
  | n + 1, st =>
    match te.invokeTools st.msgs with
    | .error _ => { st with failed := true, iters := st.iters + 1 }
    | .ok resp =>
      if resp.tool_calls.isEmpty then { st with iters := st.iters + 1 }
      else
        let st1 : LoopState :=
          { st with msgs := st.msgs ++ [.aiTools resp], iters := st.iters + 1 }
        match runToolCalls te rw resp.tool_calls st1 with
        | .error st2 => { st2 with failed := true }
        | .ok st2 => agentGo te rw n st2

def agentLoop (te : ToolEnv) (init : List LCMessage) (rw : String) : LoopState :=
  agentGo te rw 5 { msgs := init, sources := [], failed := false, iters := 0 }

/-- The data-sources event payload (route.ts lines 236-244 and 419-427):
client indices are 1-based over the accumulated list, and a source with an
empty title falls back to its url. -/
def mkSourceEntries (sources : List SearchResult) : List SourceEntry :=
  enumMapFrom 0 (fun idx s =>
    { title := if s.title == "" then s.url else s.title
      url := s.url
      snippet := s.content
      index := idx + 1 }) sources

/-- The createUIMessageStream execute closure shared by both versions
(route.ts lines 232-272 and 415-455): the sources event is written first
when any sources were captured, then the model stream is merged; on stream
completion the assistant message is persisted when a chatId and a non-empty
completion exist, and a persistence failure there is caught and logged. -/
def streamPhase (stream : List LCMessage → Except Unit (List String))
    (dbAssist : Except Unit Unit) (finalMsgs : List LCMessage)
    (captured : List SearchResult) (chatId : Option String) : PostOutcome :=
  let ev0 : List StreamEvent :=
    if captured.length > 0 then [.sourcesEvent (mkSourceEntries captured)] else []
  match stream finalMsgs with
  | .error _ => .streamed (ev0 ++ [.streamErr]) false ""
  | .ok toks =>
    let completion := String.join toks
    let persisted :=
      chatId.isSome && !(completion == "") &&
        (match dbAssist with
         | .ok _ => true
         | .error _ => false)
    .streamed (ev0 ++ toks.map .token) persisted completion

/-- Conversation history for the query rewriter (route.ts lines 140-143). -/
def histOf (msgs : List UIMessage) : List (String × String) :=
  msgs.dropLast.map (fun m =>
    ((if m.role == "user" then "human" else "assistant"), extractTextFromMessage m))

/-- SYSTEM_PROMPT of src/unnamed/part_003 (lines 201-210). -/
def SYSTEM_PROMPT : String :=
  "You are a helpful AI search assistant.\n\n" ++
  "When search results are provided, use them to answer accurately and cite sources " ++
  "using [1], [2], etc.\n\nRules:\n- Be concise and direct\n" ++
  "- Format responses in Markdown for readability\n" ++
  "- If search results are provided, base your answer on them and cite sources\n" ++
  "- If no search results are provided, answer from your knowledge or say you " ++
  "don\x27t know\n" ++
  "- Never mention whether you searched or not - just answer naturally"

/-- Prior turns as LangChain messages (route.ts lines 30-39 and 151). -/
def prevOf (msgs : List UIMessage) : List LCMessage :=
  msgs.dropLast.map (fun m =>
    if m.role == "user" then .human (extractTextFromMessage m)
    else .ai (extractTextFromMessage m))

/-- The initial LangChain message list of version A (route.ts lines
152-156): system prompt, prior turns, rewritten user turn. -/
def initMsgsOf (msgs : List UIMessage) (rw : String) : List LCMessage :=
  .system SYSTEM_PROMPT :: prevOf msgs ++ [.human rw]

/-- Version A pipeline after validation (route.ts lines 101-274): the user
message save is awaited with no local catch, so its failure reaches the
outer catch; the rewrite failure likewise; the agent loop then runs and a
failed tool-calling path streams from the original non-tool message list. -/
def runPipelineA (env : EnvA) (msgs : List UIMessage) (chatId : Option String)
    (userQuery : String) : PostOutcome :=
  let saveUser : Except Unit Unit :=
    match chatId with
    | some _ => env.dbUser
    | none => .ok ()
  match saveUser with
  | .error _ => .internalError
  | .ok _ =>
    match env.rewriteQuery (histOf msgs) userQuery with
    | .error _ => .internalError
    | .ok rw =>
      let lcMsgs := initMsgsOf msgs rw
      let st := agentLoop env.tools lcMsgs rw
      let finalMsgs := if st.failed then lcMsgs else st.msgs
      streamPhase env.stream env.dbAssist finalMsgs st.sources chatId

/-- Embedding of the version A POST handler (route.ts lines 79-285). The
none body models a request whose JSON parsing throws, reaching the outer
catch. Validation mirrors lines 83-99. -/
def POSTA (env : EnvA) (body : Option ReqBody) : PostOutcome :=
  match body with
  | none => .internalError
  | some b =>
    match b.messages with
    | none => .badRequest "Messages are required"
    | some msgs =>
      match msgs.getLast? with
      | none => .badRequest "Messages are required"
      | some last =>
        if !(last.role == "user") then .badRequest "Last message must be from user"
        else if jsTrim (extractTextFromMessage last) == "" then
          .badRequest "Message content is empty"
        else runPipelineA env msgs b.chatId (extractTextFromMessage last)

/-- Claim-side validation predicate for C3, from the spec words: the
messages list is missing or empty, the last message is not from the user,
or its extracted text trims to empty. -/
def reqInvalid (b : ReqBody) : Bool :=
  match b.messages with
  | none => true
  | some msgs =>
    match msgs.getLast? with
    | none => true
    | some last =>
      !(last.role == "user") || jsTrim (extractTextFromMessage last) == ""

/-! ## Version B of the POST handler (route.ts lines 294-468) -/

/-- Oracles of handler version B: the searchWeb call, the user-message save,
the awaited title lookup (resolving to the message count when the chat
exists) and title update, the model stream, and the assistant save. -/
structure EnvB where
  search : Except Unit (List SearchResult)
  dbUser : Except Unit Unit
  findChat : Except Unit (Option Nat)
  updateTitle : Except Unit Unit
  stream : List LCMessage → Except Unit (List String)
  dbAssist : Except Unit Unit

/-- Title derivation shared by both versions (route.ts lines 119-122 and
359-360). -/
def computeTitle (userQuery : String) : String :=
  if userQuery.length > 50 then String.mk (userQuery.toList.take 47) ++ "..." else userQuery

/-- The augmented user turn of version B (route.ts lines 369-376). -/
def augmentedQueryOf (sourcesContext : String) (userQuery : String) : String :=
  if !(sourcesContext == "") then
    "Based on the following search results, answer the user\x27s question.\n\n" ++
      "Search Results:\n" ++ sourcesContext ++ "\n\nUser Question: " ++ userQuery
  else userQuery

/-- Version B pipeline after validation (route.ts lines 331-457): the
search failure is caught locally and degrades to zero sources, while the
awaited user save, chat lookup and title update propagate their failures to
the outer catch. -/
def runPipelineB (env : EnvB) (msgs : List UIMessage) (chatId : Option String)
    (userQuery : String) : PostOutcome :=
  let sources : List SearchResult :=
    match env.search with
    | .ok s => s
    | .error _ => []
  let sourcesContext := formatSourcesForPrompt sources
  let persistStep : Except Unit Unit :=
    match chatId with
    | none => .ok ()
    | some _ =>
      match env.dbUser with
      | .error e => .error e
      | .ok _ =>
        match env.findChat with
        | .error e => .error e
        | .ok none => .ok ()
        | .ok (some msgCount) =>
          if msgCount ≤ 1 then env.updateTitle else .ok ()
  match persistStep with
  | .error _ => .internalError
  | .ok _ =>
    let lcMsgs : List LCMessage :=
      .system SYSTEM_PROMPT :: prevOf msgs ++
        [.human (augmentedQueryOf sourcesContext userQuery)]
    streamPhase env.stream env.dbAssist lcMsgs sources chatId

/-- Embedding of the version B POST handler (route.ts lines 294-468), with
the same validation as version A. -/
def POSTB (env : EnvB) (body : Option ReqBody) : PostOutcome :=
  match body with
  | none => .internalError
  | some b =>
    match b.messages with
    | none => .badRequest "Messages are required"
    | some msgs =>
      match msgs.getLast? with
      | none => .badRequest "Messages are required"
      | some last =>
        if !(last.role == "user") then .badRequest "Last message must be from user"
        else if jsTrim (extractTextFromMessage last) == "" then
          .badRequest "Message content is empty"
        else runPipelineB env msgs b.chatId (extractTextFromMessage last)

/-! ## Concrete fixtures used by counterexamples and witnesses -/

/-- A backend result object in the direct-API field shape. -/
def jsonFranceItem : Json :=
  .jobj [("title", .jstr "France"), ("url", .jstr "u"), ("content", .jstr "Paris"),
    ("engine", .jstr "wiki")]

/-- Gateway environment whose primary tool resolves to an empty JSON array
and whose direct fallback would succeed with one result. -/
def gwEnvEmptyPrimary : GatewayEnv :=
  { primary := .ok (.rstr "[]")
    fetch := .ok { ok := true, body := .ok (.jobj [("results", .jarr [jsonFranceItem])]) } }

def srcA : SearchResult := { title := "A", url := "ua", content := "ca", engine := "ea" }

def srcB : SearchResult := { title := "B", url := "ub", content := "cb", engine := "eb" }

/-! ## Claim C1 -/

/-- Helper for C1: a failing fallback path returns the empty list. -/
theorem searchWebDirect_of_directFails (fetch : Except Unit FetchResp) (limit : Nat)
    (h : directFails fetch = true) : searchWebDirect fetch limit = [] := by
  cases fetch with
  | error e => rfl
  | ok resp =>
    obtain ⟨rok, rbody⟩ := resp
    cases rok with
    | false => rfl
    | true =>
      cases rbody with
      | error e => rfl
      | ok data =>
        revert h
        unfold directFails searchWebDirect
        dsimp only
        cases jGetV data "results" with
        | jsUndefined => intro h; rfl
        | val j =>
          cases j <;> intro h <;> first
            | rfl
            | (exfalso; simp at h)

/-- C1, counterexample: with the primary tool resolving to the payload of an
empty array (zero extracted results) the lib/searxng.ts gateway returns the
empty list without invoking the direct fallback, although the fallback would
have produced a result; the part_001 gateway on the same environment does
invoke the fallback and returns that result. -/
theorem c1_counterexample :
    searchWebInternalFE gwEnvEmptyPrimary 5 = { results := [], direct := false } ∧
    searchWebInternalA gwEnvEmptyPrimary 5 =
      { results := [{ title := "France", url := "u", content := "Paris", engine := "wiki" }],
        direct := true } :=
  ⟨rfl, rfl⟩

/-- Helper for C1: a failing primary path in the part_001 gateway routes to
the direct fallback. -/
theorem searchWebInternalA_fallback (env : GatewayEnv) (limit : Nat)
    (h : primaryFailsA env.primary limit = true) :
    searchWebInternalA env limit =
      { results := searchWebDirect env.fetch limit, direct := true } := by
  unfold primaryFailsA at h
  unfold searchWebInternalA
  cases hp : env.primary with
  | error e => rfl
  | ok raw =>
    rw [hp] at h
    cases raw with
    | rother => rfl
    | rstr s =>
      dsimp only at h ⊢
      cases hs : (s == "No good results found.") with
      | true => simp [hs]
      | false =>
        simp only [hs, Bool.false_or] at h
        simp only [hs, Bool.false_eq_true, if_false]
        cases hn : normalizeResultsA s limit with
        | none => simp
        | some rs =>
          rw [hn] at h
          dsimp only at h
          simp at h
          simp [h]

/-- C1, amended: in the part_001 gateway a thrown primary or zero extracted
results always routes through the direct fallback, and a failing fallback
yields the empty list; the lib/searxng.ts gateway invokes the fallback only
when the primary throws, with the same empty-list degradation. Neither
variant propagates an error: both are total functions into result lists. -/
theorem c1_amended (env : GatewayEnv) (limit : Nat) :
    (primaryFailsA env.primary limit = true →
      (searchWebInternalA env limit).direct = true) ∧
    (primaryFailsA env.primary limit = true → directFails env.fetch = true →
      (searchWebInternalA env limit).results = []) ∧
    (env.primary = .error () → (searchWebInternalFE env limit).direct = true) ∧
    (env.primary = .error () → directFails env.fetch = true →
      (searchWebInternalFE env limit).results = []) := by
  refine ⟨?_, ?_, ?_, ?_⟩
  · intro h
    rw [searchWebInternalA_fallback env limit h]
  · intro h hf
    rw [searchWebInternalA_fallback env limit h]
    exact searchWebDirect_of_directFails env.fetch limit hf
  · intro h
    unfold searchWebInternalFE
    rw [h]
  · intro h hf
    unfold searchWebInternalFE
    rw [h]
    exact searchWebDirect_of_directFails env.fetch limit hf

/-- C1, witness: a malformed primary payload triggers the fallback in the
part_001 gateway, and a thrown primary triggers it in both; with the
fallback network call also failing, the final result is the empty list. -/
theorem c1_witness :
    (searchWebInternalA { primary := .ok (.rstr "nonsense"), fetch := .error () } 5).direct =
        true ∧
    (searchWebInternalA { primary := .ok (.rstr "nonsense"), fetch := .error () } 5).results =
        [] ∧
    (searchWebInternalFE { primary := .error (), fetch := .error () } 5).direct = true ∧
    (searchWebInternalFE { primary := .error (), fetch := .error () } 5).results = [] :=
  ⟨(c1_amended _ 5).1 rfl, (c1_amended _ 5).2.1 rfl rfl,
    (c1_amended _ 5).2.2.1 rfl, (c1_amended _ 5).2.2.2 rfl rfl⟩

/-! ## Claim C7 -/

/-- C7, counterexample: the lib/searxng.ts Result Normalizer turns the empty
payload, and any malformed payload, into one fabricated placeholder result
wrapping the raw string, not into the empty list. -/
theorem c7_counterexample :
    normalizeResultsFE "" 5 =
        [{ title := "Search Results", url := "", content := "", engine := "searxng" }] ∧
    normalizeResultsFE "oops" 5 =
        [{ title := "Search Results", url := "", content := "oops", engine := "searxng" }] :=
  ⟨rfl, rfl⟩

/-- C7, amended: the part_002 Result Normalizer yields the empty list on a
malformed payload none of whose lines parse as JSON (its only non-empty
outputs for malformed payloads come from parseable newline-separated result
lines), while the lib/searxng.ts variant yields the single placeholder
result wrapping the raw payload; neither throws, being total functions. -/
theorem c7_amended (s : String) (limit : Nat)
    (h1 : jsonParse s = none)
    (h2 : ((splitOnChar '\n' s.toList).filter (fun l => jsTrim l ≠ "")).all
        (fun l => (jsonParse l).isNone) = true) :
    normalizeResultsP2 s limit = [] ∧
    normalizeResultsFE s limit =
      [{ title := "Search Results", url := "", content := s, engine := "searxng" }] := by
  constructor
  · unfold normalizeResultsP2
    rw [h1]
    have hnil : ((splitOnChar '\n' s.toList).filter (fun l => jsTrim l ≠ "")).filterMap
        (fun l =>
          match jsonParse l with
          | some j => if resultLike j then some (parseResultItem j) else none
          | none => none) = [] := by
      rw [List.filterMap_eq_nil_iff]
      intro l hl
      have := (List.all_eq_true.mp h2) l hl
      cases hj : jsonParse l with
      | some j => rw [hj] at this; simp at this
      | none => simp
    simp only [hnil, List.length_nil, gt_iff_lt, Nat.lt_irrefl, if_false]
  · unfold normalizeResultsFE
    rw [h1]

/-- C7, witness: the payload oops is malformed as a whole and on its single
line, so the part_002 normalizer yields the empty list while the
lib/searxng.ts normalizer fabricates the placeholder. -/
theorem c7_witness :
    normalizeResultsP2 "oops" 5 = [] ∧
    normalizeResultsFE "oops" 5 =
      [{ title := "Search Results", url := "", content := "oops", engine := "searxng" }] :=
  c7_amended "oops" 5 rfl rfl

/-! ## Claim C4 -/

/-- C4: every query whose lowercased trimmed form matches a no-search
pattern is classified NO_SEARCH by the heuristic stage; the stage is a pure
function, so no model invocation is involved, and the result holds whether
or not a search pattern also matches, because the no-search bank is tested
first and short-circuits. -/
theorem c4_noSearchShortCircuit (query : String)
    (h : noSearchMatch ((jsTrim (toLowerStr query)).toList) = true) :
    classifyQueryHeuristic query = .NO_SEARCH := by
  have h2 : noSearchMatch (jsTrim (toLowerStr query)).data = true := h
  simp [classifyQueryHeuristic, h2]

/-- C4, witness: the greetings, thanks and arithmetic examples classify as
NO_SEARCH, and how are you does so although it also matches the wh-question
search pattern. -/
theorem c4_witness :
    noSearchMatch ((jsTrim (toLowerStr "how are you")).toList) = true ∧
    searchMatch ((jsTrim (toLowerStr "how are you")).toList) = true ∧
    classifyQueryHeuristic "how are you" = .NO_SEARCH ∧
    classifyQueryHeuristic "hello" = .NO_SEARCH ∧
    classifyQueryHeuristic "thanks!" = .NO_SEARCH ∧
    classifyQueryHeuristic "5 + 3" = .NO_SEARCH :=
  ⟨rfl, rfl, c4_noSearchShortCircuit "how are you" rfl,
    c4_noSearchShortCircuit "hello" rfl, c4_noSearchShortCircuit "thanks!" rfl,
    c4_noSearchShortCircuit "5 + 3" rfl⟩

/-! ## Claim C10 -/

/-- C10: the heuristic classifier is not invariant under letter case: these
two queries differ only in capitalization (their lowercasings agree), no
pattern matches either, and the proper-noun detector, which inspects the
original string, sends the capitalized form to SEARCH while the
all-lowercase form is AMBIGUOUS. -/
theorem c10_caseSensitivity :
    toLowerStr "tottenham Fixtures please" = toLowerStr "tottenham fixtures please" ∧
    noSearchMatch ((jsTrim (toLowerStr "tottenham fixtures please")).toList) = false ∧
    searchMatch ((jsTrim (toLowerStr "tottenham fixtures please")).toList) = false ∧
    classifyQueryHeuristic "tottenham fixtures please" = .AMBIGUOUS ∧
    classifyQueryHeuristic "tottenham Fixtures please" = .SEARCH :=
  ⟨rfl, rfl, rfl, rfl, rfl⟩

/-! ## Claim C5 -/

/-- C5, counterexample: the model output here contains a line beginning with
SEARCH colon, yet classifyAndRewrite returns NO_SEARCH with the original
query, because the code tests whether the whole extracted output starts
with SEARCH colon, not whether some line does, and the NO_SEARCH branch
then fires. -/
theorem c5_counterexample :
    someLineBeginsWithSearch "NO_SEARCH\nSEARCH: cats" = true ∧
    classifyAndRewrite (.ok "NO_SEARCH\nSEARCH: cats") "orig" =
      { decision := .NO_SEARCH, query := "orig" } :=
  ⟨rfl, rfl⟩

/-- C5, amended: after think-block stripping and trimming (with the
inside-think recovery), an extracted output that itself begins with SEARCH
colon, case-insensitively, yields SEARCH with the trailing text or the
original query when that text is empty; otherwise a NO_SEARCH occurrence
anywhere yields NO_SEARCH with the original query; otherwise the fail-safe
SEARCH with the original query; and a thrown model call yields the same
fail-safe default. -/
theorem c5_amended (resp : Except Unit String) (q : String) :
    (resp = .error () → classifyAndRewrite resp q = { decision := .SEARCH, query := q }) ∧
    (∀ raw, resp = .ok raw →
      ((dropLit "SEARCH:".toList (toUpperStr (extractOutput raw)).toList).isSome = true →
        classifyAndRewrite resp q =
          { decision := .SEARCH
            query :=
              if jsTrim (String.mk ((extractOutput raw).toList.drop 7)) == "" then q
              else jsTrim (String.mk ((extractOutput raw).toList.drop 7)) }) ∧
      ((dropLit "SEARCH:".toList (toUpperStr (extractOutput raw)).toList).isSome = false →
        containsSubL "NO_SEARCH".toList (toUpperStr (extractOutput raw)).toList = true →
        classifyAndRewrite resp q = { decision := .NO_SEARCH, query := q }) ∧
      ((dropLit "SEARCH:".toList (toUpperStr (extractOutput raw)).toList).isSome = false →
        containsSubL "NO_SEARCH".toList (toUpperStr (extractOutput raw)).toList = false →
        classifyAndRewrite resp q = { decision := .SEARCH, query := q })) := by
  constructor
  · intro h
    rw [h]
    rfl
  · intro raw hr
    subst hr
    refine ⟨?_, ?_, ?_⟩
    · intro h
      unfold classifyAndRewrite parseClassifierOutput
      dsimp only
      cases hd : dropLit "SEARCH:".toList (toUpperStr (extractOutput raw)).toList with
      | none => rw [hd] at h; simp at h
      | some rest => rfl
    · intro h hn
      unfold classifyAndRewrite parseClassifierOutput
      dsimp only
      cases hd : dropLit "SEARCH:".toList (toUpperStr (extractOutput raw)).toList with
      | none => dsimp only; rw [hn]; simp
      | some rest => rw [hd] at h; simp at h
    · intro h hn
      unfold classifyAndRewrite parseClassifierOutput
      dsimp only
      cases hd : dropLit "SEARCH:".toList (toUpperStr (extractOutput raw)).toList with
      | none => dsimp only; rw [hn]; simp
      | some rest => rw [hd] at h; simp at h

/-! ## Fixtures and helper lemmas for the POST handler claims -/

def userMsgFixture : UIMessage :=
  { role := "user", parts := some [.text "capital of France?"], content := .cnone }

def chatBody : ReqBody := { messages := some [userMsgFixture], chatId := some "c1" }

def toolRespOne : ModelResp :=
  { content := "", tool_calls := [{ name := "web_search", args := [], id := some "t1" }] }

def toolRespTwo : ModelResp :=
  { content := "", tool_calls := [{ name := "web_search", args := [], id := some "t2" }] }

def toolRespDone : ModelResp := { content := "done", tool_calls := [] }

/-- Tool oracles whose model asks for one web search and whose search call
throws. -/
def toolsSearchFail : ToolEnv :=
  { invokeTools := fun ms => if ms.length ≤ 2 then .ok toolRespOne else .ok toolRespDone
    search := fun _ => .error ()
    toolExists := fun _ => false
    toolInvoke := fun _ _ => .ok "" }

def toolsSearchOk : ToolEnv := { toolsSearchFail with search := fun _ => .ok [srcA] }

/-- Tool oracles whose model asks for a web search in each of its first two
iterations. -/
def toolsTwoSearches : ToolEnv :=
  { toolsSearchOk with
    invokeTools := fun ms =>
      if ms.length ≤ 2 then .ok toolRespOne
      else if ms.length ≤ 4 then .ok toolRespTwo
      else .ok toolRespDone }

def chatEnvSearchFail : EnvA :=
  { rewriteQuery := fun _ _ => .ok "capital France"
    tools := toolsSearchFail
    dbUser := .ok ()
    titleUpdate := .ok ()
    stream := fun _ => .ok ["Paris", "."]
    dbAssist := .ok () }

def chatEnvSearchOk : EnvA := { chatEnvSearchFail with tools := toolsSearchOk }

def chatEnvB : EnvB :=
  { search := .ok [srcA]
    dbUser := .ok ()
    findChat := .ok (some 1)
    updateTitle := .ok ()
    stream := fun _ => .ok ["ans"]
    dbAssist := .ok () }

/-- The streaming phase never produces a 400 response. -/
theorem streamPhase_not_bad (s : List LCMessage → Except Unit (List String))
    (d : Except Unit Unit) (fm : List LCMessage) (cap : List SearchResult)
    (cid : Option String) : isBadRequest (streamPhase s d fm cap cid) = false := by
  unfold streamPhase
  cases s fm <;> rfl

/-- The version A pipeline past validation never produces a 400 response. -/
theorem runPipelineA_not_bad (env : EnvA) (msgs : List UIMessage) (cid : Option String)
    (q : String) : isBadRequest (runPipelineA env msgs cid q) = false := by
  unfold runPipelineA
  cases cid <;> dsimp only
  · cases env.rewriteQuery (histOf msgs) q <;> dsimp only
    · rfl
    · exact streamPhase_not_bad _ _ _ _ _
  · cases env.dbUser <;> dsimp only
    · rfl
    · cases env.rewriteQuery (histOf msgs) q <;> dsimp only
      · rfl
      · exact streamPhase_not_bad _ _ _ _ _

/-- The version B pipeline past validation never produces a 400 response. -/
theorem runPipelineB_not_bad (env : EnvB) (msgs : List UIMessage) (cid : Option String)
    (q : String) : isBadRequest (runPipelineB env msgs cid q) = false := by
  unfold runPipelineB
  cases cid <;> dsimp only
  · exact streamPhase_not_bad _ _ _ _ _
  · cases env.dbUser <;> dsimp only
    · rfl
    · cases env.findChat <;> (try dsimp only)
      · rfl
      · rename_i chat
        cases chat <;> (try dsimp only)
        · exact streamPhase_not_bad _ _ _ _ _
        · rename_i msgCount
          by_cases hm : msgCount ≤ 1
          · simp only [hm, if_true]
            cases env.updateTitle <;> dsimp only
            · rfl
            · exact streamPhase_not_bad _ _ _ _ _
          · simp only [hm, if_false]
            exact streamPhase_not_bad _ _ _ _ _

/-- Helper for C2: with a failing assistant-message store the streaming
phase still delivers the same events and completion, only unpersisted. -/
theorem streamPhase_assistFail (s : List LCMessage → Except Unit (List String))
    (d : Except Unit Unit) (fm : List LCMessage) (cap : List SearchResult)
    (cid : Option String) (ev : List StreamEvent) (p : Bool) (c : String)
    (h : streamPhase s d fm cap cid = .streamed ev p c) :
    streamPhase s (.error ()) fm cap cid = .streamed ev false c := by
  unfold streamPhase at h ⊢
  cases hs : s fm with
  | error e =>
    rw [hs] at h
    dsimp only at h ⊢
    obtain ⟨h1, h2, h3⟩ := PostOutcome.streamed.inj h
    rw [h1, h3]
  | ok toks =>
    rw [hs] at h
    dsimp only at h ⊢
    obtain ⟨h1, h2, h3⟩ := PostOutcome.streamed.inj h
    rw [h1, h3]
    simp [Bool.and_false]

/-! ## Claim C2 -/

/-- C2, counterexample: the same valid chatId-carrying request streams a
complete answer when the store works, but returns the HTTP 500 outcome when
saving the incoming user message throws, because that save is awaited with
no local catch and the failure reaches the outer handler catch. -/
theorem c2_counterexample :
    POSTA chatEnvSearchOk (some chatBody) =
      .streamed
        [.sourcesEvent [{ title := "A", url := "ua", snippet := "ca", index := 1 }],
          .token "Paris", .token "."] true "Paris." ∧
    POSTA { chatEnvSearchOk with dbUser := .error () } (some chatBody) = .internalError :=
  ⟨rfl, rfl⟩

/-- C2, amended: a failure of the store while saving the finished assistant
message is caught and logged and never changes the streamed events or the
completion, only the persisted flag; the fire-and-forget title update can
never affect the outcome at all; but a failure while saving the incoming
user message of a chatId-carrying request propagates to the outer catch and
yields the 500 outcome instead of the streamed answer. -/
theorem c2_amended (env : EnvA) (body : Option ReqBody) (ev : List StreamEvent) (p : Bool)
    (c : String) (h : POSTA env body = .streamed ev p c) :
    POSTA { env with dbAssist := .error () } body = .streamed ev false c ∧
    ∀ t : Except Unit Unit, POSTA { env with titleUpdate := t } body = POSTA env body := by
  constructor
  · cases body with
    | none => exact PostOutcome.noConfusion h
    | some b =>
      obtain ⟨bm, bc⟩ := b
      unfold POSTA at h ⊢
      dsimp only at h ⊢
      revert h
      cases bm with
      | none => intro h; simp at h
      | some msgs =>
        dsimp only
        cases msgs.getLast? with
        | none => intro h; simp at h
        | some last =>
          dsimp only
          cases hr : (last.role == "user") with
          | false => intro h; simp at h
          | true =>
            cases hq : (jsTrim (extractTextFromMessage last) == "") with
            | true => intro h; simp at h
            | false =>
              intro h
              simp only [Bool.not_true, Bool.false_eq_true, if_false] at h ⊢
              unfold runPipelineA at h ⊢
              dsimp only at h ⊢
              revert h
              cases bc with
              | none =>
                dsimp only
                cases env.rewriteQuery (histOf msgs) (extractTextFromMessage last) with
                | error e => intro h; simp at h
                | ok rw =>
                  intro h
                  exact streamPhase_assistFail _ _ _ _ _ _ _ _ h
              | some cid =>
                dsimp only
                cases env.dbUser with
                | error e => intro h; simp at h
                | ok u =>
                  dsimp only
                  cases env.rewriteQuery (histOf msgs) (extractTextFromMessage last) with
                  | error e => intro h; simp at h
                  | ok rw =>
                    intro h
                    exact streamPhase_assistFail _ _ _ _ _ _ _ _ h
  · intro t
    rfl

/-- C2, witness: with the assistant-message store failing, the concrete
request still receives the full streamed answer with its sources event,
only unpersisted; the title-update oracle is irrelevant to the outcome. -/
theorem c2_witness :
    POSTA { chatEnvSearchOk with dbAssist := .error () } (some chatBody) =
      .streamed
        [.sourcesEvent [{ title := "A", url := "ua", snippet := "ca", index := 1 }],
          .token "Paris", .token "."] false "Paris." ∧
    POSTA { chatEnvSearchOk with titleUpdate := .error () } (some chatBody) =
      POSTA chatEnvSearchOk (some chatBody) :=
  ⟨(c2_amended chatEnvSearchOk (some chatBody) _ true "Paris." rfl).1,
    (c2_amended chatEnvSearchOk (some chatBody) _ true "Paris." rfl).2 (.error ())⟩

/-! ## Claim C3 -/

/-- C3: both POST versions answer with a 400-class response exactly on the
invalid requests of the claim (messages missing or empty, last message not
from the user, extracted text empty after trimming); on an invalid request
the outcome is independent of every oracle, so no classification,
retrieval, model call or persistence can influence or be influenced by it;
every other parseable request proceeds past validation into the pipeline. -/
theorem c3_validation (envA envA2 : EnvA) (envB : EnvB) (b : ReqBody) :
    (isBadRequest (POSTA envA (some b)) = reqInvalid b) ∧
    (isBadRequest (POSTB envB (some b)) = reqInvalid b) ∧
    (reqInvalid b = true → POSTA envA (some b) = POSTA envA2 (some b)) := by
  obtain ⟨bm, bc⟩ := b
  refine ⟨?_, ?_, ?_⟩
  · unfold POSTA reqInvalid
    dsimp only
    cases bm with
    | none => rfl
    | some msgs =>
      dsimp only
      cases msgs.getLast? with
      | none => rfl
      | some last =>
        dsimp only
        cases hr : (last.role == "user") with
        | false => simp [hr, isBadRequest]
        | true =>
          cases hq : (jsTrim (extractTextFromMessage last) == "") with
          | true => simp [hr, hq, isBadRequest]
          | false => simp [hr, hq, runPipelineA_not_bad]
  · unfold POSTB reqInvalid
    dsimp only
    cases bm with
    | none => rfl
    | some msgs =>
      dsimp only
      cases msgs.getLast? with
      | none => rfl
      | some last =>
        dsimp only
        cases hr : (last.role == "user") with
        | false => simp [hr, isBadRequest]
        | true =>
          cases hq : (jsTrim (extractTextFromMessage last) == "") with
          | true => simp [hr, hq, isBadRequest]
          | false => simp [hr, hq, runPipelineB_not_bad]
  · intro hinv
    unfold reqInvalid at hinv
    unfold POSTA
    dsimp only at hinv ⊢
    cases bm with
    | none => rfl
    | some msgs =>
      dsimp only at hinv ⊢
      revert hinv
      cases msgs.getLast? with
      | none => intro hinv; rfl
      | some last =>
        intro hinv
        dsimp only at hinv ⊢
        cases hr : (last.role == "user") with
        | false => simp [hr]
        | true =>
          rw [hr] at hinv
          cases hq : (jsTrim (extractTextFromMessage last) == "") with
          | true => simp [hr, hq]
          | false => rw [hq] at hinv; simp at hinv

/-! ## Claim C6 -/

/-- Helper for C6: executing tool calls never changes the iteration count. -/
theorem runToolCalls_iters (te : ToolEnv) (rw : String) :
    (tcs : List ToolCall) → (st : LoopState) →
      (match runToolCalls te rw tcs st with
       | .ok st2 => st2.iters
       | .error st2 => st2.iters) = st.iters
  | [], _ => rfl
  | tc :: rest, st => by
    unfold runToolCalls
    cases executeTool te tc.name tc.args rw with
    | error e => rfl
    | ok pr =>
      obtain ⟨result, sources⟩ := pr
      dsimp only
      exact runToolCalls_iters te rw rest _

/-- Helper for C6: the agent loop adds at most its fuel to the iteration
count. -/
theorem agentGo_iters (te : ToolEnv) (rw : String) :
    (n : Nat) → (st : LoopState) → (agentGo te rw n st).iters ≤ st.iters + n
  | 0, st => Nat.le_add_right _ _
  | n + 1, st => by
    unfold agentGo
    cases te.invokeTools st.msgs with
    | error e => dsimp only; omega
    | ok resp =>
      dsimp only
      cases htc : resp.tool_calls.isEmpty with
      | true => simp only [eq_self_iff_true, if_true]; omega
      | false =>
        simp only [Bool.false_eq_true, if_false]
        have hrt := runToolCalls_iters te rw resp.tool_calls
          { st with msgs := st.msgs ++ [.aiTools resp], iters := st.iters + 1 }
        cases hrc : runToolCalls te rw resp.tool_calls
            { st with msgs := st.msgs ++ [.aiTools resp], iters := st.iters + 1 } with
        | error st2 =>
          rw [hrc] at hrt
          dsimp only at hrt ⊢
          omega
        | ok st2 =>
          rw [hrc] at hrt
          dsimp only at hrt ⊢
          have hrec := agentGo_iters te rw n st2
          omega

/-- C6: when the first agent-loop iteration requests the web-search tool and
the search call throws, the tool-calling path is abandoned: the final
streaming call runs over the original non-tool message list (system prompt,
prior turns, rewritten user turn), the request still produces a completed
streamed outcome that is persisted given a chatId and a non-empty
completion, no 500 is produced; and for every environment whatsoever the
agent loop performs at most 5 iterations. -/
theorem c6_toolLoopFallback (env : EnvA) (msgs : List UIMessage) (cid : String)
    (last : UIMessage) (rw : String) (resp : ModelResp) (tc : ToolCall)
    (toks : List String)
    (hlast : msgs.getLast? = some last)
    (hrole : (last.role == "user") = true)
    (hqne : (jsTrim (extractTextFromMessage last) == "") = false)
    (huser : env.dbUser = .ok ())
    (hrw : env.rewriteQuery (histOf msgs) (extractTextFromMessage last) = .ok rw)
    (hinv : env.tools.invokeTools (initMsgsOf msgs rw) = .ok resp)
    (htc : resp.tool_calls = [tc])
    (hname : tc.name = "web_search")
    (hsearch : env.tools.search rw = .error ())
    (hstream : env.stream (initMsgsOf msgs rw) = .ok toks)
    (htoks : (String.join toks == "") = false)
    (hassist : env.dbAssist = .ok ()) :
    POSTA env (some { messages := some msgs, chatId := some cid }) =
      .streamed (toks.map .token) true (String.join toks) ∧
    ∀ (te : ToolEnv) (init : List LCMessage) (rwq : String),
      (agentLoop te init rwq).iters ≤ 5 := by
  have hloop : agentLoop env.tools (initMsgsOf msgs rw) rw =
      { msgs := initMsgsOf msgs rw ++ [.aiTools resp]
        sources := []
        failed := true
        iters := 1 } := by
    unfold agentLoop agentGo
    dsimp only
    rw [hinv]
    dsimp only
    rw [htc]
    simp only [List.isEmpty_cons, Bool.false_eq_true, if_false]
    unfold runToolCalls executeTool
    simp only [hname, beq_self_eq_true, if_true]
    rw [hsearch]
  constructor
  · unfold POSTA
    dsimp only
    rw [hlast]
    dsimp only
    rw [hrole]
    simp only [Bool.not_true, Bool.false_eq_true, if_false]
    rw [hqne]
    simp only [Bool.false_eq_true, if_false]
    unfold runPipelineA
    dsimp only
    rw [huser]
    dsimp only
    rw [hrw]
    dsimp only
    rw [hloop]
    dsimp only
    simp only [eq_self_iff_true, if_true]
    unfold streamPhase
    rw [hstream]
    simp [htoks, hassist]
  · intro te init rwq
    have h := agentGo_iters te rwq 5 { msgs := init, sources := [], failed := false, iters := 0 }
    dsimp only at h
    unfold agentLoop
    omega

/-- C6, witness: the concrete request whose single tool call throws still
streams and persists the full answer from the non-tool message list. -/
theorem c6_witness :
    POSTA chatEnvSearchFail (some { messages := some [userMsgFixture], chatId := some "c1" }) =
      .streamed [.token "Paris", .token "."] true "Paris." ∧
    (agentLoop toolsTwoSearches (initMsgsOf [userMsgFixture] "q") "q").iters ≤ 5 :=
  ⟨(c6_toolLoopFallback chatEnvSearchFail [userMsgFixture] "c1" userMsgFixture
      "capital France" toolRespOne { name := "web_search", args := [], id := some "t1" }
      ["Paris", "."] rfl rfl rfl rfl rfl rfl rfl rfl rfl rfl rfl rfl).1,
    (c6_toolLoopFallback chatEnvSearchFail [userMsgFixture] "c1" userMsgFixture
      "capital France" toolRespOne { name := "web_search", args := [], id := some "t1" }
      ["Paris", "."] rfl rfl rfl rfl rfl rfl rfl rfl rfl rfl rfl rfl).2
      toolsTwoSearches (initMsgsOf [userMsgFixture] "q") "q"⟩

/-! ## Claim C8 -/

/-- C8, counterexample: across two agent-loop iterations the accumulated
source list is numbered 1 and 2 in the client sources event, but each
tool-result text seen by the model numbers its own execution from 1, so the
source carrying client index 2 appears in the model-facing text as [1]. -/
theorem c8_counterexample :
    (agentLoop toolsTwoSearches (initMsgsOf [userMsgFixture] "q") "q").sources =
        [srcA, srcA] ∧
    mkSourceEntries [srcA, srcA] =
        [{ title := "A", url := "ua", snippet := "ca", index := 1 },
          { title := "A", url := "ua", snippet := "ca", index := 2 }] ∧
    (agentLoop toolsTwoSearches (initMsgsOf [userMsgFixture] "q") "q").msgs =
        initMsgsOf [userMsgFixture] "q" ++
          [.aiTools toolRespOne, .tool "[1] A\nURL: ua\nca" "t1",
            .aiTools toolRespTwo, .tool "[1] A\nURL: ua\nca" "t2"] ∧
    formatToolResult [srcA] = "[1] A\nURL: ua\nca" :=
  ⟨rfl, rfl, rfl, rfl⟩

/-- C8, amended: the client sources event and both model-facing numbered
texts (the executeTool result and formatSourcesForPrompt) agree position by
position whenever they are built from the same list - in particular for the
sources of a single search execution: the entry at position i carries client
index i plus 1 and both texts label it [i plus 1]; with sources accumulated
from several executions the model-facing numbering restarts at 1 per
execution and no longer matches the client indices. -/
theorem c8_amended (sources : List SearchResult) (i : Nat) (r : SearchResult)
    (h : sources[i]? = some r) :
    (mkSourceEntries sources)[i]? =
      some { title := if r.title == "" then r.url else r.title, url := r.url,
             snippet := r.content, index := i + 1 } ∧
    (toolResultLines sources)[i]? =
      some ("[" ++ toString (i + 1) ++ "] " ++ r.title ++ "\nURL: " ++ r.url ++ "\n" ++
        r.content) ∧
    (promptLines sources)[i]? =
      some ("[" ++ toString (i + 1) ++ "] " ++ r.title ++ "\nURL: " ++ r.url ++ "\n" ++
        r.content) := by
  unfold mkSourceEntries toolResultLines promptLines
  simp only [enumMapFrom_getElem, Nat.zero_add, h, Option.map_some]
  exact ⟨rfl, rfl, rfl⟩

/-- C8, witness: at position 1 of a two-source list, the client entry gets
index 2 and both single-list texts label that source [2]. -/
theorem c8_witness :
    (mkSourceEntries [srcA, srcB])[1]? =
      some { title := "B", url := "ub", snippet := "cb", index := 2 } ∧
    (toolResultLines [srcA, srcB])[1]? = some ("[2] B\nURL: ub\ncb") ∧
    (promptLines [srcA, srcB])[1]? = some ("[2] B\nURL: ub\ncb") :=
  c8_amended [srcA, srcB] 1 srcB rfl

/-! ## Claim C9 -/

/-- Helper for C9: any sources event in a streaming-phase event list is its
first element, and nothing after the head is a sources event. -/
theorem streamPhase_order (s : List LCMessage → Except Unit (List String))
    (d : Except Unit Unit) (fm : List LCMessage) (cap : List SearchResult)
    (cid : Option String) (ev : List StreamEvent) (p : Bool) (c : String)
    (h : streamPhase s d fm cap cid = .streamed ev p c)
    (d0 : List SourceEntry) (hd : StreamEvent.sourcesEvent d0 ∈ ev) :
    ev.head? = some (.sourcesEvent d0) ∧
      ∀ e ∈ ev.drop 1, isSourcesEvent e = false := by
  unfold streamPhase at h
  by_cases hc : cap.length > 0
  · simp only [hc, if_true] at h
    cases hs : s fm with
    | error e =>
      rw [hs] at h
      dsimp only at h
      obtain ⟨h1, h2, h3⟩ := PostOutcome.streamed.inj h
      subst h1
      simp only [List.singleton_append] at hd ⊢
      rw [List.mem_cons] at hd
      rcases hd with heq | hd
      · obtain rfl := (StreamEvent.sourcesEvent.inj heq).symm
        exact ⟨rfl, by intro e he; simp at he; rw [he]; rfl⟩
      · simp at hd
    | ok toks =>
      rw [hs] at h
      dsimp only at h
      obtain ⟨h1, h2, h3⟩ := PostOutcome.streamed.inj h
      subst h1
      simp only [List.singleton_append] at hd ⊢
      rw [List.mem_cons] at hd
      rcases hd with heq | hd
      · obtain rfl := (StreamEvent.sourcesEvent.inj heq).symm
        refine ⟨rfl, ?_⟩
        intro e he
        simp only [List.drop_one, List.tail_cons] at he
        obtain ⟨t, _, ht⟩ := List.mem_map.mp he
        rw [← ht]
        rfl
      · obtain ⟨t, _, ht⟩ := List.mem_map.mp hd
        exact absurd ht (by simp)
  · simp only [hc, if_false] at h
    cases hs : s fm with
    | error e =>
      rw [hs] at h
      dsimp only at h
      obtain ⟨h1, h2, h3⟩ := PostOutcome.streamed.inj h
      subst h1
      simp at hd
    | ok toks =>
      rw [hs] at h
      dsimp only at h
      obtain ⟨h1, h2, h3⟩ := PostOutcome.streamed.inj h
      subst h1
      simp only [List.nil_append] at hd
      obtain ⟨t, _, ht⟩ := List.mem_map.mp hd
      exact absurd ht (by simp)

/-- Helper for C9: every streamed outcome of the version A handler is an
outcome of the streaming phase. -/
theorem postA_streamed (env : EnvA) (body : Option ReqBody) (ev : List StreamEvent)
    (p : Bool) (c : String) (h : POSTA env body = .streamed ev p c) :
    ∃ fm cap cid, streamPhase env.stream env.dbAssist fm cap cid = .streamed ev p c := by
  cases body with
  | none => exact PostOutcome.noConfusion h
  | some b =>
    obtain ⟨bm, bc⟩ := b
    unfold POSTA at h
    dsimp only at h
    revert h
    cases bm with
    | none => intro h; simp at h
    | some msgs =>
      dsimp only
      cases msgs.getLast? with
      | none => intro h; simp at h
      | some last =>
        dsimp only
        cases hr : (last.role == "user") with
        | false => intro h; simp at h
        | true =>
          cases hq : (jsTrim (extractTextFromMessage last) == "") with
          | true => intro h; simp at h
          | false =>
            intro h
            simp only [Bool.not_true, Bool.false_eq_true, if_false] at h
            unfold runPipelineA at h
            dsimp only at h
            revert h
            cases bc with
            | none =>
              dsimp only
              cases env.rewriteQuery (histOf msgs) (extractTextFromMessage last) with
              | error e => intro h; simp at h
              | ok rw => intro h; exact ⟨_, _, _, h⟩
            | some cid =>
              dsimp only
              cases env.dbUser with
              | error e => intro h; simp at h
              | ok u =>
                dsimp only
                cases env.rewriteQuery (histOf msgs) (extractTextFromMessage last) with
                | error e => intro h; simp at h
                | ok rw => intro h; exact ⟨_, _, _, h⟩

/-- Helper for C9: every streamed outcome of the version B handler is an
outcome of the streaming phase. -/
theorem postB_streamed (env : EnvB) (body : Option ReqBody) (ev : List StreamEvent)
    (p : Bool) (c : String) (h : POSTB env body = .streamed ev p c) :
    ∃ fm cap cid, streamPhase env.stream env.dbAssist fm cap cid = .streamed ev p c := by
  cases body with
  | none => exact PostOutcome.noConfusion h
  | some b =>
    obtain ⟨bm, bc⟩ := b
    unfold POSTB at h
    dsimp only at h
    revert h
    cases bm with
    | none => intro h; simp at h
    | some msgs =>
      dsimp only
      cases msgs.getLast? with
      | none => intro h; simp at h
      | some last =>
        dsimp only
        cases hr : (last.role == "user") with
        | false => intro h; simp at h
        | true =>
          cases hq : (jsTrim (extractTextFromMessage last) == "") with
          | true => intro h; simp at h
          | false =>
            intro h
            simp only [Bool.not_true, Bool.false_eq_true, if_false] at h
            unfold runPipelineB at h
            dsimp only at h
            revert h
            cases bc with
            | none =>
              intro h
              exact ⟨_, _, _, h⟩
            | some cid =>
              dsimp only
              cases env.dbUser with
              | error e => intro h; simp at h
              | ok u =>
                dsimp only
                cases env.findChat with
                | error e => intro h; simp at h
                | ok chat =>
                  cases chat with
                  | none => intro h; exact ⟨_, _, _, h⟩
                  | some msgCount =>
                    by_cases hm : msgCount ≤ 1
                    · simp only [hm, if_true]
                      cases env.updateTitle with
                      | error e => intro h; simp at h
                      | ok u2 => intro h; exact ⟨_, _, _, h⟩
                    · simp only [hm, if_false]
                      intro h
                      exact ⟨_, _, _, h⟩

/-- C9: in both handler versions, whenever the response stream carries a
sources event at all (which happens exactly when sources were retrieved),
that event is the first element of the stream, written strictly before
every answer-text token. -/
theorem c9_sourcesBeforeTokens :
    (∀ (env : EnvA) (body : Option ReqBody) (ev : List StreamEvent) (p : Bool) (c : String),
      POSTA env body = .streamed ev p c →
        ∀ d0, StreamEvent.sourcesEvent d0 ∈ ev →
          ev.head? = some (.sourcesEvent d0) ∧
            ∀ e ∈ ev.drop 1, isSourcesEvent e = false) ∧
    (∀ (env : EnvB) (body : Option ReqBody) (ev : List StreamEvent) (p : Bool) (c : String),
      POSTB env body = .streamed ev p c →
        ∀ d0, StreamEvent.sourcesEvent d0 ∈ ev →
          ev.head? = some (.sourcesEvent d0) ∧
            ∀ e ∈ ev.drop 1, isSourcesEvent e = false) := by
  constructor
  · intro env body ev p c h d0 hd
    obtain ⟨fm, cap, cid, hs⟩ := postA_streamed env body ev p c h
    exact streamPhase_order env.stream env.dbAssist fm cap cid ev p c hs d0 hd
  · intro env body ev p c h d0 hd
    obtain ⟨fm, cap, cid, hs⟩ := postB_streamed env body ev p c h
    exact streamPhase_order env.stream env.dbAssist fm cap cid ev p c hs d0 hd

/-- C9, witness: in both versions, the concrete request that retrieves one
source streams the sources event first and only answer tokens after it. -/
theorem c9_witness :
    ([StreamEvent.sourcesEvent [{ title := "A", url := "ua", snippet := "ca", index := 1 }],
        StreamEvent.token "Paris", StreamEvent.token "."].head? =
      some (.sourcesEvent [{ title := "A", url := "ua", snippet := "ca", index := 1 }]) ∧
      ∀ e ∈ [StreamEvent.sourcesEvent
          [{ title := "A", url := "ua", snippet := "ca", index := 1 }],
        StreamEvent.token "Paris", StreamEvent.token "."].drop 1,
        isSourcesEvent e = false) ∧
    ([StreamEvent.sourcesEvent [{ title := "A", url := "ua", snippet := "ca", index := 1 }],
        StreamEvent.token "ans"].head? =
      some (.sourcesEvent [{ title := "A", url := "ua", snippet := "ca", index := 1 }]) ∧
      ∀ e ∈ [StreamEvent.sourcesEvent
          [{ title := "A", url := "ua", snippet := "ca", index := 1 }],
        StreamEvent.token "ans"].drop 1, isSourcesEvent e = false) :=
  ⟨c9_sourcesBeforeTokens.1 chatEnvSearchOk (some chatBody) _ true "Paris." rfl _
      (List.mem_cons_self _ _),
    c9_sourcesBeforeTokens.2 chatEnvB (some chatBody) _ true "ans" rfl _
      (List.mem_cons_self _ _)⟩

/-- C3, witness: the three invalid shapes give their 400 responses without
consulting any oracle, a valid request passes validation, and a
JSON-unparseable body is a 500, not a 400. -/
theorem c3_witness :
    isBadRequest (POSTA chatEnvSearchOk (some { messages := none, chatId := none })) =
        reqInvalid { messages := none, chatId := none } ∧
    isBadRequest (POSTA chatEnvSearchOk (some { messages := some [], chatId := none })) =
        reqInvalid { messages := some [], chatId := none } ∧
    isBadRequest (POSTB chatEnvB (some chatBody)) = reqInvalid chatBody ∧
    POSTA chatEnvSearchOk (some { messages := none, chatId := none }) =
        POSTA chatEnvSearchFail (some { messages := none, chatId := none }) ∧
    POSTA chatEnvSearchOk none = .internalError :=
  ⟨(c3_validation chatEnvSearchOk chatEnvSearchFail chatEnvB
      { messages := none, chatId := none }).1,
    (c3_validation chatEnvSearchOk chatEnvSearchFail chatEnvB
      { messages := some [], chatId := none }).1,
    (c3_validation chatEnvSearchOk chatEnvSearchFail chatEnvB chatBody).2.1,
    (c3_validation chatEnvSearchOk chatEnvSearchFail chatEnvB
      { messages := none, chatId := none }).2.2 rfl,
    rfl⟩

/-- C5, witness: the four parse outcomes at concrete model responses. -/
theorem c5_witness :
    classifyAndRewrite (.error ()) "q1" = { decision := .SEARCH, query := "q1" } ∧
    classifyAndRewrite (.ok "SEARCH: dogs") "q1" = { decision := .SEARCH, query := "dogs" } ∧
    classifyAndRewrite (.ok "well NO_SEARCH") "q1" =
      { decision := .NO_SEARCH, query := "q1" } ∧
    classifyAndRewrite (.ok "huh") "q1" = { decision := .SEARCH, query := "q1" } :=
  ⟨(c5_amended (.error ()) "q1").1 rfl,
    ((c5_amended (.ok "SEARCH: dogs") "q1").2 "SEARCH: dogs" rfl).1 rfl,
    ((c5_amended (.ok "well NO_SEARCH") "q1").2 "well NO_SEARCH" rfl).2.1 rfl rfl,
    ((c5_amended (.ok "huh") "q1").2 "huh" rfl).2.2 rfl rfl⟩

end FreeSearch
